import Mathlib

/-!
Shallow embedding of the Web STL Visualizer core (src/src/App.tsx and
src/src/FileList.tsx).

Numbers of the program (JavaScript doubles) are embedded as real numbers.
JavaScript object identity (the semantics of the strict reference equality
operator used by the source for file objects) is modelled by an explicit
allocation tag `oid` carried by every file object: each evaluation of an
object literal in the source allocates a fresh tag, and reference equality
of two file objects is equality of their tags.
-/

namespace WebSTL

-- ==================== TYPES (src/src/App.tsx lines 13-50) ====================

/-- `STLFile` from App.tsx lines 13-18, with the extra `oid` field modelling
JavaScript object identity.  `visible` and `color` are optional fields. -/
structure STLFile where
  oid : Nat
  name : String
  url : String
  visible : Option Bool
  color : Option String
  deriving DecidableEq

/-- `ModelTransformations` from App.tsx lines 23-30: six optional numeric
fields. -/
structure ModelTransformations where
  positionX : Option ℝ := none
  positionY : Option ℝ := none
  positionZ : Option ℝ := none
  rotationX : Option ℝ := none
  rotationY : Option ℝ := none
  rotationZ : Option ℝ := none

/-- `TransformationAxis` from App.tsx line 35. -/
inductive TransformationAxis
  | positionX
  | positionY
  | positionZ
  | rotationX
  | rotationY
  | rotationZ
  deriving DecidableEq

/-- `MeasurementUnit` from App.tsx line 40. -/
inductive MeasurementUnit
  | mm
  | cm
  | inches
  deriving DecidableEq

/-- `UNIT_TO_MM` from App.tsx lines 46-50. -/
noncomputable def UNIT_TO_MM : MeasurementUnit → ℝ
  | .mm => 1
  | .cm => 10
  | .inches => 25.4

-- ==================== UTILITIES (App.tsx lines 59-70) ====================

/-- `AVAILABLE_COLORS` from App.tsx lines 60-68. -/
def AVAILABLE_COLORS : List String :=
  ["#858585", "#9a9a9a", "#b0b0b0", "#c5c5c5", "#dbdbdb", "#eeeeee", "#ffffff"]

/-- `getColorByIndex` from App.tsx lines 59-70:
`AVAILABLE_COLORS[index % AVAILABLE_COLORS.length]`.  JavaScript array
indexing yields `undefined` out of bounds, hence the `Option` result. -/
def getColorByIndex (index : Nat) : Option String :=
  AVAILABLE_COLORS[index % AVAILABLE_COLORS.length]?

-- ==================== JS HELPERS ====================

/-- JavaScript truthiness of a possibly-undefined boolean
(`undefined` is falsy). -/
def jsTruthy : Option Bool → Bool
  | some b => b
  | none => false

/-- Reference equality of two file objects (the `===` of the source),
modelled as equality of allocation tags. -/
def sameRef (a b : STLFile) : Bool := a.oid == b.oid

/-- Truncation toward zero, as used by the JavaScript `%` operator. -/
noncomputable def rTrunc (x : ℝ) : ℤ := if 0 ≤ x then ⌊x⌋ else ⌈x⌉

/-- The JavaScript remainder operator `x % y`: `x - y * trunc (x / y)`
(the sign of the result follows the dividend). -/
noncomputable def jsMod (x y : ℝ) : ℝ := x - y * (rTrunc (x / y) : ℝ)

-- ==================== TRANSFORM STORE (App.tsx lines 468, 519-531) ===========

/-- The `modelTransformations` state (App.tsx line 468): a JavaScript object
mapping file names to transformation records. -/
def TransformationsMap : Type := String → Option ModelTransformations

/-- The initial `{}` value of the `modelTransformations` state. -/
def emptyTransformations : TransformationsMap := fun _ => none

/-- Field read `record[axis]` of a transformation record. -/
def getAxis (t : ModelTransformations) : TransformationAxis → Option ℝ
  | .positionX => t.positionX
  | .positionY => t.positionY
  | .positionZ => t.positionZ
  | .rotationX => t.rotationX
  | .rotationY => t.rotationY
  | .rotationZ => t.rotationZ

/-- Field write `{...record, [axis]: value}` of a transformation record. -/
def setAxis (t : ModelTransformations) (axis : TransformationAxis) (value : ℝ) :
    ModelTransformations :=
  match axis with
  | .positionX => { t with positionX := some value }
  | .positionY => { t with positionY := some value }
  | .positionZ => { t with positionZ := some value }
  | .rotationX => { t with rotationX := some value }
  | .rotationY => { t with rotationY := some value }
  | .rotationZ => { t with rotationZ := some value }

/-- `updateModelTransformation` from App.tsx lines 519-531:
`{...prev, [fileName]: {...prev[fileName], [axis]: (prev[fileName]?.[axis] || 0) + incrementValue}}`.
Spreading `undefined` yields `{}`, and `prev[fileName]?.[axis] || 0`
defaults a missing record or field to 0. -/
noncomputable def updateModelTransformation
    (previousTransformations : TransformationsMap)
    (fileName : String) (axis : TransformationAxis) (incrementValue : ℝ) :
    TransformationsMap :=
  fun key =>
    if key = fileName then
      some (setAxis ((previousTransformations fileName).getD {}) axis
        (((previousTransformations fileName).bind
            (fun r => getAxis r axis)).getD 0 + incrementValue))
    else previousTransformations key

/-- The read pattern `transformations[fileName]?.[axis] || 0` used at
App.tsx lines 228, 415 and 441. -/
noncomputable def readAxis (transformations : TransformationsMap)
    (fileName : String) (axis : TransformationAxis) : ℝ :=
  ((transformations fileName).bind (fun r => getAxis r axis)).getD 0

/-- The record observed for a rendered model,
`transformations[file.name] || {}` (App.tsx line 167): the lookup is keyed
by the file's display name. -/
def observedRecord (transformations : TransformationsMap) (file : STLFile) :
    ModelTransformations :=
  (transformations file.name).getD {}

-- ==================== ROTATION (App.tsx lines 214-235) ====================

/-- `radiansToDegrees` from App.tsx lines 214-218:
`degrees = radians * 180 / Math.PI`, then normalization
`((degrees % 360) + 360) % 360`. -/
noncomputable def radiansToDegrees (radians : ℝ) : ℝ :=
  jsMod (jsMod (radians * 180 / Real.pi) 360 + 360) 360

/-- `degreesToRadians` from App.tsx lines 221-224:
`normalized = ((degrees % 360) + 360) % 360`, result
`normalized * Math.PI / 180`. -/
noncomputable def degreesToRadians (degrees : ℝ) : ℝ :=
  jsMod (jsMod degrees 360 + 360) 360 * Real.pi / 180

/-- `updateRotation` from App.tsx lines 227-235, acting on the
transformations map: it reads the current radian value, converts to
normalized degrees, adds the degree increment, converts back to normalized
radians, and passes the difference `normalizedRadians - currentRadians` to
`updateModelTransformation` (so the stored value is replaced, not
incremented). -/
noncomputable def updateRotation (transformations : TransformationsMap)
    (fileName : String) (axis : TransformationAxis) (degreesIncrement : ℝ) :
    TransformationsMap :=
  let currentRadians := readAxis transformations fileName axis
  let currentDegrees := radiansToDegrees currentRadians
  let newDegrees := currentDegrees + degreesIncrement
  let normalizedRadians := degreesToRadians newDegrees
  updateModelTransformation transformations fileName axis
    (normalizedRadians - currentRadians)

/-- A sequence of rotation edits, each naming a file, an axis and a degree
increment, applied in order through `updateRotation`. -/
noncomputable def applyRotationOps (transformations : TransformationsMap)
    (ops : List (String × TransformationAxis × ℝ)) : TransformationsMap :=
  ops.foldl (fun m op => updateRotation m op.1 op.2.1 op.2.2) transformations

-- ==================== UNIT CONVERSION (App.tsx lines 325-348, 416) =========

/-- Conversion native units → millimeters, the expression
`valueInSTLUnits * conversionFactor` of App.tsx line 416. -/
noncomputable def toMillimeters (valueInSTLUnits : ℝ) (unit : MeasurementUnit) : ℝ :=
  valueInSTLUnits * UNIT_TO_MM unit

/-- Conversion millimeters → native units, the expression
`deltaMM / conversionFactor` used by the fixed-step buttons at
App.tsx lines 325-346. -/
noncomputable def fromMillimeters (valueInMM : ℝ) (unit : MeasurementUnit) : ℝ :=
  valueInMM / UNIT_TO_MM unit

-- ==================== UPLOAD / SELECTION / VISIBILITY (App.tsx 476-513) =====

/-- A raw uploaded file as seen by `handleFileUpload`: its name, and the
object URL that `URL.createObjectURL` returns for it (the latter is produced
by the external environment). -/
structure UploadedRaw where
  name : String
  url : String
  deriving DecidableEq

/-- The body of the `uploadedFiles.map((file, index) => ...)` call of
App.tsx lines 479-489: the file at batch position `i` receives
`globalIndex = loadedFiles.length + i` (here `baseIndex + i`) and the fixed
color `getColorByIndex globalIndex`; `visible` starts `true`.  Each created
object literal gets a fresh allocation tag, threaded through `baseOid`. -/
def uploadMap (baseIndex : Nat) (baseOid : Nat) : List UploadedRaw → List STLFile
  | [] => []
  | f :: rest =>
    { oid := baseOid, name := f.name, url := f.url, visible := some true,
      color := getColorByIndex baseIndex } :: uploadMap (baseIndex + 1) (baseOid + 1) rest

/-- `handleFileUpload` from App.tsx lines 476-492:
`setLoadedFiles(previous => [...previous, ...newSTLFiles])`. -/
def handleFileUpload (loadedFiles : List STLFile)
    (uploadedFiles : List UploadedRaw) (baseOid : Nat) : List STLFile :=
  loadedFiles ++ uploadMap loadedFiles.length baseOid uploadedFiles

/-- `handleFileSelection` from App.tsx lines 498-502:
`setSelectedFile(current => current === file ? null : file)`. -/
def handleFileSelection (currentSelection : Option STLFile) (file : STLFile) :
    Option STLFile :=
  match currentSelection with
  | some g => if sameRef g file then none else some file
  | none => some file

/-- `toggleFileVisibility` from App.tsx lines 507-513:
`previous.map(f => f === file ? {...f, visible: !f.visible} : f)`.
The spread creates a new object (fresh allocation tag `freshOid`);
`!f.visible` maps `undefined` and `false` to `true`, `true` to `false`. -/
def toggleFileVisibility (previousFiles : List STLFile) (file : STLFile)
    (freshOid : Nat) : List STLFile :=
  previousFiles.map fun f =>
    if sameRef f file then
      { f with oid := freshOid, visible := some (!(jsTruthy f.visible)) }
    else f

/-- The per-item selection test `file === selectedFile` used for rendering
(App.tsx line 166, FileList.tsx line 55). -/
def isSelected (file : STLFile) (selectedFile : Option STLFile) : Bool :=
  match selectedFile with
  | some g => sameRef file g
  | none => false

/-- The rendered subset `files.filter(file => file.visible !== false)`
(App.tsx line 161). -/
def visibleFiles (files : List STLFile) : List STLFile :=
  files.filter fun f => f.visible != some false

/-- Cardinality of the visible subset. -/
def visibleModelCount (files : List STLFile) : Nat :=
  (visibleFiles files).length

-- ==================== SCENE FRAMER (App.tsx lines 122-156) ====================

/-- A three-component vector (THREE.Vector3 data). -/
structure Vec3 where
  x : ℝ
  y : ℝ
  z : ℝ

/-- Componentwise vector addition (THREE.Vector3.add). -/
noncomputable def Vec3.add (a b : Vec3) : Vec3 := ⟨a.x + b.x, a.y + b.y, a.z + b.z⟩

/-- Euclidean norm (THREE.Vector3.length). -/
noncomputable def Vec3.len (v : Vec3) : ℝ := Real.sqrt (v.x ^ 2 + v.y ^ 2 + v.z ^ 2)

/-- An axis-aligned bounding box (THREE.Box3 data).  The box handed to the
framer is produced by the external `Box3.setFromObject` call. -/
structure Box3 where
  lo : Vec3
  hi : Vec3

/-- THREE.Box3.getCenter: the midpoint of the box corners. -/
noncomputable def Box3.getCenter (b : Box3) : Vec3 :=
  ⟨(b.lo.x + b.hi.x) / 2, (b.lo.y + b.hi.y) / 2, (b.lo.z + b.hi.z) / 2⟩

/-- THREE.Box3.getSize: the extent vector of the box. -/
noncomputable def Box3.getSize (b : Box3) : Vec3 :=
  ⟨b.hi.x - b.lo.x, b.hi.y - b.lo.y, b.hi.z - b.lo.z⟩

/-- The reframe instruction emitted by the camera-adjustment effect:
the group recenter offset, the new camera position, and the camera
look-at target. -/
structure Reframe where
  recenterOffset : Vec3
  cameraPosition : Vec3
  cameraLookAt : Vec3

/-- The camera-adjustment effect of `ModelsContainer` (App.tsx lines
127-156) as a function of the full loaded file list, the previously
recorded count (`previousFileCountRef`), and the bounding box of the group:
it emits a reframe exactly when `currentFileCount > 0` and
`currentFileCount !== previousFileCount`, with
`recenterOffset = (-center.x, -center.y, -center.z)`,
`cameraPosition = center + (0, 0, size.length() * 1.5)` and
`cameraLookAt = center`. -/
noncomputable def maybeReframe (files : List STLFile) (previousFileCount : Nat)
    (boundingBox : Box3) : Option Reframe :=
  let currentFileCount := files.length
  if 0 < currentFileCount ∧ currentFileCount ≠ previousFileCount then
    let center := boundingBox.getCenter
    let size := boundingBox.getSize
    let cameraDistance := size.len * 1.5
    some { recenterOffset := ⟨-center.x, -center.y, -center.z⟩,
           cameraPosition := center.add ⟨0, 0, cameraDistance⟩,
           cameraLookAt := center }
  else none

/-- The update of `previousFileCountRef` (App.tsx line 154): the recorded
count is overwritten only when the effect actually reframes. -/
def nextPreviousFileCount (files : List STLFile) (previousFileCount : Nat) : Nat :=
  if 0 < files.length ∧ files.length ≠ previousFileCount then files.length
  else previousFileCount

-- ==================== HELPER LEMMAS: the JS remainder ====================

theorem jsMod_bounds_of_nonneg {x y : ℝ} (hy : 0 < y) (hx : 0 ≤ x) :
    0 ≤ jsMod x y ∧ jsMod x y < y := by
  have hxy : 0 ≤ x / y := div_nonneg hx hy.le
  have htr : rTrunc (x / y) = ⌊x / y⌋ := if_pos hxy
  have hfr : jsMod x y = y * Int.fract (x / y) := by
    rw [jsMod, htr, Int.fract, mul_sub, mul_div_cancel₀ x hy.ne']
  constructor
  · rw [hfr]
    exact mul_nonneg hy.le (Int.fract_nonneg _)
  · rw [hfr]
    calc y * Int.fract (x / y) < y * 1 :=
          mul_lt_mul_of_pos_left (Int.fract_lt_one _) hy
      _ = y := mul_one y

theorem jsMod_bounds_of_neg {x y : ℝ} (hy : 0 < y) (hx : x < 0) :
    -y < jsMod x y ∧ jsMod x y ≤ 0 := by
  have hxy : x / y < 0 := div_neg_of_neg_of_pos hx hy
  have htr : rTrunc (x / y) = ⌈x / y⌉ := if_neg (not_le.mpr hxy)
  have hid : y * (x / y) = x := mul_div_cancel₀ x hy.ne'
  have hle : x / y ≤ (⌈x / y⌉ : ℝ) := Int.le_ceil _
  have hlt : ((⌈x / y⌉ : ℤ) : ℝ) < x / y + 1 := Int.ceil_lt_add_one _
  have hle2 : x ≤ y * (⌈x / y⌉ : ℝ) := by
    calc x = y * (x / y) := hid.symm
      _ ≤ y * (⌈x / y⌉ : ℝ) := mul_le_mul_of_nonneg_left hle hy.le
  have hlt2 : y * ((⌈x / y⌉ : ℤ) : ℝ) < x + y := by
    calc y * ((⌈x / y⌉ : ℤ) : ℝ) < y * (x / y + 1) := mul_lt_mul_of_pos_left hlt hy
      _ = x + y := by rw [mul_add, hid, mul_one]
  rw [jsMod, htr]
  constructor
  · linarith
  · linarith

theorem jsMod_bounds {x y : ℝ} (hy : 0 < y) : -y < jsMod x y ∧ jsMod x y < y := by
  rcases le_or_lt 0 x with hx | hx
  · obtain ⟨h1, h2⟩ := jsMod_bounds_of_nonneg hy hx
    exact ⟨by linarith, h2⟩
  · obtain ⟨h1, h2⟩ := jsMod_bounds_of_neg hy hx
    exact ⟨h1, by linarith⟩

/-- The normalization `((d % 360) + 360) % 360` of the source always lands
in `[0, 360)`. -/
theorem double_mod_bounds (d : ℝ) :
    0 ≤ jsMod (jsMod d 360 + 360) 360 ∧ jsMod (jsMod d 360 + 360) 360 < 360 := by
  have h360 : (0 : ℝ) < 360 := by norm_num
  obtain ⟨h1, _⟩ := jsMod_bounds (x := d) h360
  exact jsMod_bounds_of_nonneg h360 (by linarith)

theorem jsMod_eq_self {x y : ℝ} (hy : 0 < y) (h0 : 0 ≤ x) (h1 : x < y) :
    jsMod x y = x := by
  have hxy0 : 0 ≤ x / y := div_nonneg h0 hy.le
  have hxy1 : x / y < 1 := (div_lt_one hy).mpr h1
  have htr : rTrunc (x / y) = ⌊x / y⌋ := if_pos hxy0
  have hf : ⌊x / y⌋ = 0 := Int.floor_eq_zero_iff.mpr ⟨hxy0, hxy1⟩
  rw [jsMod, htr, hf]
  simp

theorem jsMod_eq_sub {x y : ℝ} (hy : 0 < y) (h0 : y ≤ x) (h1 : x < 2 * y) :
    jsMod x y = x - y := by
  have hxy0 : (0 : ℝ) ≤ x / y := div_nonneg (by linarith) hy.le
  have hxy1 : (1 : ℝ) ≤ x / y := (one_le_div hy).mpr h0
  have hxy2 : x / y < 2 := (div_lt_iff₀ hy).mpr (by linarith)
  have htr : rTrunc (x / y) = ⌊x / y⌋ := if_pos hxy0
  have hf : ⌊x / y⌋ = 1 := by
    rw [Int.floor_eq_iff]
    constructor
    · exact_mod_cast hxy1
    · push_cast
      linarith
  rw [jsMod, htr, hf]
  push_cast
  ring

theorem jsMod_neg_eq_self {x y : ℝ} (hy : 0 < y) (h0 : -y < x) (h1 : x < 0) :
    jsMod x y = x := by
  have hxyneg : x / y < 0 := div_neg_of_neg_of_pos h1 hy
  have htr : rTrunc (x / y) = ⌈x / y⌉ := if_neg (not_le.mpr hxyneg)
  have hgt : (-1 : ℝ) < x / y := by
    rw [lt_div_iff₀ hy]
    linarith
  have hc : ⌈x / y⌉ = 0 := Int.ceil_eq_zero_iff.mpr ⟨hgt, hxyneg.le⟩
  rw [jsMod, htr, hc]
  simp

-- ==================== HELPER LEMMAS: axis fields ====================

theorem getAxis_setAxis_same (t : ModelTransformations) (axis : TransformationAxis)
    (v : ℝ) : getAxis (setAxis t axis v) axis = some v := by
  cases axis <;> rfl

theorem getAxis_setAxis_ne (t : ModelTransformations) {a b : TransformationAxis}
    (h : b ≠ a) (v : ℝ) : getAxis (setAxis t a v) b = getAxis t b := by
  cases a <;> cases b <;> first | rfl | exact absurd rfl h

theorem getAxis_empty (axis : TransformationAxis) :
    getAxis {} axis = none := by
  cases axis <;> rfl

theorem readAxis_empty (fileName : String) (axis : TransformationAxis) :
    readAxis emptyTransformations fileName axis = 0 := rfl

theorem readAxis_update_same (m : TransformationsMap) (fileName : String)
    (axis : TransformationAxis) (inc : ℝ) :
    readAxis (updateModelTransformation m fileName axis inc) fileName axis
      = readAxis m fileName axis + inc := by
  unfold readAxis updateModelTransformation
  simp [getAxis_setAxis_same]

theorem readAxis_update_ne (m : TransformationsMap) {fn1 fn2 : String}
    {ax1 ax2 : TransformationAxis} (h : fn2 ≠ fn1 ∨ ax2 ≠ ax1) (inc : ℝ) :
    readAxis (updateModelTransformation m fn1 ax1 inc) fn2 ax2
      = readAxis m fn2 ax2 := by
  unfold readAxis updateModelTransformation
  by_cases hfn : fn2 = fn1
  · have hax : ax2 ≠ ax1 := h.resolve_left (by simp [hfn])
    subst hfn
    rw [if_pos rfl, Option.some_bind, getAxis_setAxis_ne _ hax]
    cases hm : m fn2 <;> simp [hm, getAxis_empty]
  · simp [hfn]

theorem readAxis_updateRotation_same (m : TransformationsMap) (fileName : String)
    (axis : TransformationAxis) (d : ℝ) :
    readAxis (updateRotation m fileName axis d) fileName axis
      = degreesToRadians (radiansToDegrees (readAxis m fileName axis) + d) := by
  unfold updateRotation
  rw [readAxis_update_same]
  ring

theorem readAxis_updateRotation_ne (m : TransformationsMap) {fn1 fn2 : String}
    {ax1 ax2 : TransformationAxis} (h : fn2 ≠ fn1 ∨ ax2 ≠ ax1) (d : ℝ) :
    readAxis (updateRotation m fn1 ax1 d) fn2 ax2 = readAxis m fn2 ax2 := by
  unfold updateRotation
  exact readAxis_update_ne m h _

-- ==================== HELPER LEMMAS: normalized angles ====================

theorem degreesToRadians_bounds (d : ℝ) :
    0 ≤ degreesToRadians d ∧ degreesToRadians d < 2 * Real.pi := by
  obtain ⟨h0, h1⟩ := double_mod_bounds d
  have hpi := Real.pi_pos
  unfold degreesToRadians
  constructor
  · positivity
  · rw [div_lt_iff₀ (by norm_num : (0 : ℝ) < 180)]
    nlinarith

theorem radiansToDegrees_of_small {d : ℝ} (h0 : 0 ≤ d) (h1 : d < 360) :
    radiansToDegrees (d * Real.pi / 180) = d := by
  have harg : d * Real.pi / 180 * 180 / Real.pi = d := by
    field_simp
  rw [radiansToDegrees, harg, jsMod_eq_self (by norm_num) h0 h1,
    jsMod_eq_sub (by norm_num) (by linarith) (by linarith)]
  ring

theorem degreesToRadians_of_small {d : ℝ} (h0 : 0 ≤ d) (h1 : d < 360) :
    degreesToRadians d = d * Real.pi / 180 := by
  rw [degreesToRadians, jsMod_eq_self (by norm_num) h0 h1,
    jsMod_eq_sub (by norm_num) (by linarith) (by linarith)]
  ring_nf

-- ==================== CONCRETE FILE OBJECTS ====================

/-- A concrete loaded file object. -/
def fileA : STLFile :=
  { oid := 0, name := "model.stl", url := "blob:model-1",
    visible := some true, color := some "#858585" }

/-- A second concrete loaded file object with a different name. -/
def fileOther : STLFile :=
  { oid := 3, name := "other.stl", url := "blob:other-1",
    visible := some true, color := none }

/-- A concrete loaded file whose display name collides with `fileDupB`. -/
def fileDupA : STLFile :=
  { oid := 1, name := "part.stl", url := "blob:dup-1",
    visible := some true, color := some "#9a9a9a" }

/-- A concrete loaded file whose display name collides with `fileDupA`
while its identity (url, allocation) is distinct. -/
def fileDupB : STLFile :=
  { oid := 2, name := "part.stl", url := "blob:dup-2",
    visible := some true, color := some "#b0b0b0" }

/-- A second concrete file, visible, used alongside `fileA`. -/
def fileSecond : STLFile :=
  { oid := 4, name := "second.stl", url := "blob:second-1",
    visible := some true, color := some "#b0b0b0" }

/-- A concrete loaded file whose visibility flag is off. -/
def fileHidden : STLFile :=
  { oid := 5, name := "hidden.stl", url := "blob:hidden-1",
    visible := some false, color := some "#c5c5c5" }

/-- A concrete degenerate bounding box. -/
noncomputable def box0 : Box3 := ⟨⟨0, 0, 0⟩, ⟨0, 0, 0⟩⟩

-- ==================== CLAIMS ====================

/-- Claim C1, counterexample: two loaded models with colliding display
names but distinct identities (distinct urls and distinct objects); applying
a transform delta to the first changes the transform record observed for
the second, because the store is keyed by the display name. -/
theorem C1_counterexample :
    fileDupA.name = fileDupB.name ∧ fileDupA.url ≠ fileDupB.url ∧
    observedRecord (updateModelTransformation emptyTransformations fileDupA.name
        TransformationAxis.positionX 1) fileDupB
      ≠ observedRecord emptyTransformations fileDupB := by
  refine ⟨rfl, by decide, ?_⟩
  intro hcontra
  have hx := congrArg ModelTransformations.positionX hcontra
  simp [observedRecord, updateModelTransformation, setAxis,
    emptyTransformations, fileDupA, fileDupB] at hx

/-- Claim C1 (amended): transform records are keyed by the model's display
name, not by its identity.  Applying a transform delta through one model's
name leaves the record observed for any model with a different display name
unchanged, and two models with colliding display names always observe one
and the same record. -/
theorem C1_keyed_by_display_name (m : TransformationsMap) (f1 f2 : STLFile)
    (hname : f1.name ≠ f2.name) (axis : TransformationAxis) (inc : ℝ) :
    observedRecord (updateModelTransformation m f1.name axis inc) f2
      = observedRecord m f2 ∧
    ∀ g1 g2 : STLFile, g1.name = g2.name →
      observedRecord (updateModelTransformation m g1.name axis inc) g2
        = observedRecord (updateModelTransformation m g1.name axis inc) g1 := by
  constructor
  · simp [observedRecord, updateModelTransformation, Ne.symm hname]
  · intro g1 g2 h
    simp [observedRecord, updateModelTransformation, h]

/-- Witness for `C1_keyed_by_display_name` at concrete distinct-name
models. -/
theorem C1_keyed_by_display_name_witness :
    observedRecord (updateModelTransformation emptyTransformations fileA.name
        TransformationAxis.positionY 2) fileOther
      = observedRecord emptyTransformations fileOther :=
  (C1_keyed_by_display_name emptyTransformations fileA fileOther (by decide)
    TransformationAxis.positionY 2).1

/-- Claim C2, counterexample: with two loaded models of which one is
hidden, the visible model count is 1 while the previously recorded count is
2, yet the framer emits nothing (it compares loaded counts, which are both
2); conversely, with a single hidden model freshly loaded, the visible
count stays 0 yet the framer does emit a reframe. -/
theorem C2_counterexample :
    visibleModelCount [fileA, fileHidden] = 1 ∧
    maybeReframe [fileA, fileHidden] 2 box0 = none ∧
    visibleModelCount [fileHidden] = 0 ∧
    (maybeReframe [fileHidden] 0 box0).isSome = true := by
  refine ⟨by decide, ?_, by decide, ?_⟩
  · simp [maybeReframe]
  · simp [maybeReframe]

/-- Claim C2 (amended): the framer emits a non-empty reframe instruction
exactly when the loaded model count (visibility ignored) is positive and
differs from the previously recorded loaded count; a visibility toggle
never changes that count, so after a toggle the effect (whose recorded
count equals the current length) never emits a reframe. -/
theorem C2_reframe_iff_loaded_count_changed (files : List STLFile)
    (previousFileCount : Nat) (box : Box3) :
    ((maybeReframe files previousFileCount box).isSome ↔
      0 < files.length ∧ files.length ≠ previousFileCount) ∧
    (∀ file freshOid, (toggleFileVisibility files file freshOid).length
      = files.length) ∧
    (∀ file freshOid box2,
      maybeReframe (toggleFileVisibility files file freshOid)
        files.length box2 = none) := by
  refine ⟨?_, ?_, ?_⟩
  · by_cases h : 0 < files.length ∧ files.length ≠ previousFileCount
    · simp [maybeReframe, h]
    · simp only [maybeReframe, if_neg h, Option.isSome_none,
        Bool.false_eq_true, false_iff]
      exact h
  · intro file freshOid
    simp [toggleFileVisibility]
  · intro file freshOid box2
    unfold maybeReframe
    simp [toggleFileVisibility]

/-- Claim C3, code-bug exhibit: toggling the visibility of the currently
selected model flips only that model's flag, but replaces the model's
object, so the unchanged selection reference no longer matches any listed
model: before the toggle the model is observed as selected, afterwards no
model is. -/
theorem C3_toggle_staleness_exhibit :
    isSelected fileA (some fileA) = true ∧
    toggleFileVisibility [fileA, fileSecond] fileA 100 =
      [{ fileA with oid := 100, visible := some false }, fileSecond] ∧
    (toggleFileVisibility [fileA, fileSecond] fileA 100).map
        (fun f => isSelected f (some fileA)) = [false, false] := by
  decide

/-- Claim C5: with zero models loaded the framer returns no reframe
instruction, for every recorded previous count and every bounding box. -/
theorem C5_zero_models_no_reframe (previousFileCount : Nat) (box : Box3) :
    maybeReframe [] previousFileCount box = none := by
  simp [maybeReframe]

/-- Claim C6: for every unit, converting a value to millimeters (multiply
by the unit factor) and back (divide by the same factor) returns the value,
and the factors are mm=1, cm=10, inch=25.4. -/
theorem C6_unit_conversion_roundtrip (unit : MeasurementUnit) (x : ℝ) :
    fromMillimeters (toMillimeters x unit) unit = x ∧
    UNIT_TO_MM MeasurementUnit.mm = 1 ∧
    UNIT_TO_MM MeasurementUnit.cm = 10 ∧
    UNIT_TO_MM MeasurementUnit.inches = 25.4 := by
  refine ⟨?_, rfl, rfl, rfl⟩
  cases unit <;>
    · unfold fromMillimeters toMillimeters UNIT_TO_MM
      rw [mul_div_assoc]
      norm_num

/-- Color field of the file produced at batch position `i` of an upload
batch starting at global index `baseIndex`. -/
theorem uploadMap_color (batch : List UploadedRaw) :
    ∀ (baseIndex baseOid i : Nat),
      ((uploadMap baseIndex baseOid batch)[i]?).map (fun f => f.color)
        = (batch[i]?).map (fun _ => getColorByIndex (baseIndex + i)) := by
  induction batch with
  | nil => intro b o i; simp [uploadMap]
  | cons f rest ih =>
    intro b o i
    cases i with
    | zero => simp [uploadMap]
    | succ j =>
      have harith : b + 1 + j = b + (j + 1) := by omega
      simp only [uploadMap, List.getElem?_cons_succ]
      rw [ih (b + 1) (o + 1) j, harith]

/-- Claim C8: each uploaded model receives the palette color at index equal
to the number of models loaded before it (its batch offset added to the
previously loaded count), taken modulo the 7-color palette; the 8th model
(global index 7) gets the 1st model's color; and an upload never rewrites
the already-loaded prefix, so earlier models keep their colors. -/
theorem C8_palette_cycle (prev : List STLFile) (batch : List UploadedRaw)
    (baseOid : Nat) (i : Nat) :
    ((handleFileUpload prev batch baseOid)[prev.length + i]?).map
        (fun f => f.color)
      = (batch[i]?).map (fun _ => getColorByIndex (prev.length + i)) ∧
    (handleFileUpload prev batch baseOid).take prev.length = prev ∧
    getColorByIndex 7 = getColorByIndex 0 := by
  refine ⟨?_, ?_, rfl⟩
  · rw [handleFileUpload, List.getElem?_append_right (by omega)]
    rw [Nat.add_sub_cancel_left]
    exact uploadMap_color batch prev.length baseOid i
  · rw [handleFileUpload]
    exact List.take_left prev _

/-- Claim C9, counterexample: when the model is already selected, selecting
it twice in a row (first click deselects, second reselects) ends with the
model selected, not with an empty selection. -/
theorem C9_counterexample :
    handleFileSelection (handleFileSelection (some fileA) fileA) fileA
      = some fileA := by
  decide

/-- Claim C9 (amended): selecting the currently selected model clears the
selection, selecting any other model (or selecting with no current
selection) selects it; hence selecting a model that is not currently
selected twice in a row leaves no model selected.  At most one model is
selected at any time since the selection is a single optional reference. -/
theorem C9_selection_toggle (cur : Option STLFile) (f : STLFile) :
    ((∃ g, cur = some g ∧ sameRef g f = true) →
      handleFileSelection cur f = none) ∧
    ((∀ g, cur = some g → sameRef g f = false) →
      handleFileSelection cur f = some f) ∧
    ((∀ g, cur = some g → sameRef g f = false) →
      handleFileSelection (handleFileSelection cur f) f = none) := by
  refine ⟨?_, ?_, ?_⟩
  · rintro ⟨g, rfl, hg⟩
    simp [handleFileSelection, hg]
  · intro h
    cases cur with
    | none => rfl
    | some g => simp [handleFileSelection, h g rfl]
  · intro h
    have h1 : handleFileSelection cur f = some f := by
      cases cur with
      | none => rfl
      | some g => simp [handleFileSelection, h g rfl]
    rw [h1]
    simp [handleFileSelection, sameRef]

/-- Witness for `C9_selection_toggle`: from an empty selection, selecting
the same concrete model twice leaves no selection. -/
theorem C9_selection_toggle_witness :
    handleFileSelection (handleFileSelection none fileA) fileA = none :=
  (C9_selection_toggle none fileA).2.2 (fun _ h => by cases h)

/-- Claim C4: starting from the empty store (missing records read as
all-zero), after any sequence of rotation edits the stored rotation value
of every model and every axis lies in the canonical range [0, 2*pi);
moreover every rotation edit stores exactly the normalized target angle
(the current value plus the precomputed delta), not an accumulation of raw
radian increments. -/
theorem C4_rotation_canonical_range
    (ops : List (String × TransformationAxis × ℝ))
    (fileName : String) (axis : TransformationAxis) :
    (0 ≤ readAxis (applyRotationOps emptyTransformations ops) fileName axis ∧
      readAxis (applyRotationOps emptyTransformations ops) fileName axis
        < 2 * Real.pi) ∧
    (∀ (m : TransformationsMap) (fn : String) (ax : TransformationAxis) (d : ℝ),
      readAxis (updateRotation m fn ax d) fn ax
        = degreesToRadians (radiansToDegrees (readAxis m fn ax) + d)) := by
  constructor
  · have key : ∀ (l : List (String × TransformationAxis × ℝ))
        (m : TransformationsMap),
        (∀ fn ax, 0 ≤ readAxis m fn ax ∧ readAxis m fn ax < 2 * Real.pi) →
        ∀ fn ax, 0 ≤ readAxis (applyRotationOps m l) fn ax ∧
          readAxis (applyRotationOps m l) fn ax < 2 * Real.pi := by
      intro l
      induction l with
      | nil => intro m hm; exact hm
      | cons op rest ih =>
        intro m hm
        have hstep : ∀ fn ax,
            0 ≤ readAxis (updateRotation m op.1 op.2.1 op.2.2) fn ax ∧
            readAxis (updateRotation m op.1 op.2.1 op.2.2) fn ax
              < 2 * Real.pi := by
          intro fn ax
          by_cases h1 : fn = op.1
          · by_cases h2 : ax = op.2.1
            · subst h1; subst h2
              rw [readAxis_updateRotation_same]
              exact degreesToRadians_bounds _
            · rw [readAxis_updateRotation_ne m (Or.inr h2)]
              exact hm fn ax
          · rw [readAxis_updateRotation_ne m (Or.inl h1)]
            exact hm fn ax
        exact ih (updateRotation m op.1 op.2.1 op.2.2) hstep
    apply key ops emptyTransformations
    intro fn ax
    rw [readAxis_empty]
    exact ⟨le_refl 0, by positivity⟩
  · intro m fn ax d
    exact readAxis_updateRotation_same m fn ax d

/-- Claim C7: from a stored rotation of 350 degrees (in radians), a +20
degree edit stores the radian value of 10 degrees; from a stored rotation
of 5 degrees, a -20 degree edit stores the radian value of 345 degrees —
the wraparound of the `((d % 360) + 360) % 360` normalization applied to
the summed degree value before converting back to radians. -/
theorem C7_rotation_wraparound :
    readAxis (updateRotation (updateModelTransformation emptyTransformations
        "part.stl" TransformationAxis.rotationX (350 * Real.pi / 180))
        "part.stl" TransformationAxis.rotationX 20)
      "part.stl" TransformationAxis.rotationX = 10 * Real.pi / 180 ∧
    readAxis (updateRotation (updateModelTransformation emptyTransformations
        "part.stl" TransformationAxis.rotationX (5 * Real.pi / 180))
        "part.stl" TransformationAxis.rotationX (-20))
      "part.stl" TransformationAxis.rotationX = 345 * Real.pi / 180 := by
  have hread350 : readAxis (updateModelTransformation emptyTransformations
      "part.stl" TransformationAxis.rotationX (350 * Real.pi / 180))
      "part.stl" TransformationAxis.rotationX = 350 * Real.pi / 180 := by
    rw [readAxis_update_same, readAxis_empty, zero_add]
  have hread5 : readAxis (updateModelTransformation emptyTransformations
      "part.stl" TransformationAxis.rotationX (5 * Real.pi / 180))
      "part.stl" TransformationAxis.rotationX = 5 * Real.pi / 180 := by
    rw [readAxis_update_same, readAxis_empty, zero_add]
  constructor
  · rw [readAxis_updateRotation_same, hread350,
      radiansToDegrees_of_small (by norm_num) (by norm_num),
      show (350 : ℝ) + 20 = 370 from by norm_num, degreesToRadians,
      show jsMod 370 360 = 10 from by
        rw [jsMod_eq_sub (by norm_num) (by norm_num) (by norm_num)]; norm_num,
      show (10 : ℝ) + 360 = 370 from by norm_num,
      show jsMod 370 360 = 10 from by
        rw [jsMod_eq_sub (by norm_num) (by norm_num) (by norm_num)]; norm_num]
  · rw [readAxis_updateRotation_same, hread5,
      radiansToDegrees_of_small (by norm_num) (by norm_num),
      show (5 : ℝ) + -20 = -15 from by norm_num, degreesToRadians,
      show jsMod (-15) 360 = -15 from
        jsMod_neg_eq_self (by norm_num) (by norm_num) (by norm_num),
      show (-15 : ℝ) + 360 = 345 from by norm_num,
      show jsMod 345 360 = 345 from
        jsMod_eq_self (by norm_num) (by norm_num) (by norm_num)]

/-- Claim C10: for every nonnegative index, `getColorByIndex` returns one
of the seven palette strings (the modulo never leaves the array). -/
theorem C10_getColorByIndex_total (index : Nat) :
    ∃ c, getColorByIndex index = some c ∧ c ∈ AVAILABLE_COLORS := by
  have h : index % AVAILABLE_COLORS.length < AVAILABLE_COLORS.length :=
    Nat.mod_lt index (by decide)
  exact ⟨AVAILABLE_COLORS[index % AVAILABLE_COLORS.length],
    List.getElem?_eq_getElem h, List.getElem_mem h⟩

end WebSTL
